import Mathlib

/-!
Verification of the guided-setup sequencer (`src/lib/db/setup.ts`), the
client-construction key helper (`getSupabaseKeys`) and the session-update
middleware (`src/utils/supabase/middleware.ts`).

The setup script is embedded as pure functions over an `Env` record that
fixes, for one run, the outcome of every external command invocation and
the operator's answer to every prompt.  Each step returns a `StepResult`
(normal return, `process.exit` with a status code, or a thrown error)
together with the ordered trace of observable events it emitted
(external command invocations, prompts, configuration-file writes).
-/

namespace Setup

/-- Observable events emitted by a run of the pipeline, in order. -/
inductive Event where
  | exec : String → Event
  | prompt : String → Event
  | fileWrite : String → Event
  deriving DecidableEq, Repr

/-- Errors thrown inside the pipeline (JavaScript exceptions / promise
rejections): the explicit extraction error, or the rejection of an
`execAsync` call for the given command. -/
inductive JsError where
  | extraction : JsError
  | execFailure : String → JsError
  deriving DecidableEq, Repr

/-- Outcome of a pipeline step: normal return, `process.exit code`, or a
thrown error propagating to the caller. -/
inductive StepResult (α : Type) where
  | ok : α → StepResult α
  | exited : Nat → StepResult α
  | threw : JsError → StepResult α
  deriving DecidableEq, Repr

/-- One run's external world: the result of each external command the
script may invoke, and the operator's answer to each prompt.  Answers are
single lines as delivered by `readline` (in particular newline-free in any
real run; where a theorem needs that fact it is a hypothesis). -/
structure Env where
  stripeVersionOk : Bool
  stripeConfigOk1 : Bool
  stripeConfigOk2 : Bool
  authAnswer : String
  secretKeyAnswer : String
  listenOut : Option String
  projectAnswer : String
  continueAnswer1 : String
  continueAnswer2 : String
  urlAnswer : String
  anonKeyAnswer : String
  serviceKeyAnswer : String
  deriving DecidableEq, Repr

/-- Semantics of `.toLowerCase()` as used on the answers compared below
(all comparison tokens are ASCII): lower-case every character.  Stated
over the character list so that it evaluates by kernel reduction. -/
def toLowerStr (s : String) : String := String.mk (s.toList.map Char.toLower)

/-- Question text of the authentication confirmation prompt. -/
def authQ : String := "Have you completed the authentication? (y/n): "

/-- Question text of the Stripe secret key prompt. -/
def secretKeyQ : String := "Enter your Stripe Secret Key: "

/-- Question text of the project-existence prompt. -/
def projectQ : String := "Do you already have a Supabase project? (y/n): "

/-- Question text of the first creation-confirmation prompt. -/
def continueQ1 : String := "Type \"continue\" when you have created your project: "

/-- Question text of the second creation-confirmation prompt. -/
def continueQ2 : String := "Please type \"continue\" when you have created your project: "

/-- Question text of the Supabase API URL prompt. -/
def urlQ : String := "Enter your Supabase API Url: "

/-- Question text of the Supabase anon key prompt. -/
def anonQ : String := "Enter your Supabase Anon Key: "

/-- Question text of the Supabase service-role key prompt. -/
def serviceQ : String := "Enter your Supabase Service Role Key: "

/-- Step 1 (`checkStripeCLI`): probe `stripe --version`; on success probe
`stripe config --list`; on auth failure prompt for confirmation, exiting
with status 1 unless the lowercased answer is `y`, and otherwise re-probe
exactly once, exiting with status 1 if the re-probe fails. -/
def checkStripeCLI (env : Env) : StepResult Unit × List Event :=
  if env.stripeVersionOk then
    if env.stripeConfigOk1 then
      (.ok (), [.exec "stripe --version", .exec "stripe config --list"])
    else if toLowerStr env.authAnswer ≠ "y" then
      (.exited 1,
        [.exec "stripe --version", .exec "stripe config --list", .prompt authQ])
    else if env.stripeConfigOk2 then
      (.ok (),
        [.exec "stripe --version", .exec "stripe config --list", .prompt authQ,
         .exec "stripe config --list"])
    else
      (.exited 1,
        [.exec "stripe --version", .exec "stripe config --list", .prompt authQ,
         .exec "stripe config --list"])
  else
    (.exited 1, [.exec "stripe --version"])

/-- Step 2 (`getStripeSecretKey`): one prompt, raw answer returned. -/
def getStripeSecretKey (env : Env) : String × List Event :=
  (env.secretKeyAnswer, [.prompt secretKeyQ])

/-- Character class `[a-zA-Z0-9]` of the webhook-secret regex. -/
def isAlnumAscii (c : Char) : Bool := c.isAlpha || c.isDigit

/-- Greedy `[a-zA-Z0-9]+` continuation: the longest alphanumeric prefix. -/
def takeAlnum : List Char → List Char
  | [] => []
  | c :: cs => if isAlnumAscii c then c :: takeAlnum cs else []

/-- Literal part of the regex `whsec_[a-zA-Z0-9]+`. -/
def whsecTag : List Char := ['w', 'h', 's', 'e', 'c', '_']

/-- Match of the regex `whsec_[a-zA-Z0-9]+` anchored at the start of `cs`:
the literal tag followed by at least one alphanumeric character, extending
greedily. -/
def matchWhsecAt (cs : List Char) : Option (List Char) :=
  match cs with
  | c1 :: c2 :: c3 :: c4 :: c5 :: c6 :: c :: rest =>
    if [c1, c2, c3, c4, c5, c6] = whsecTag ∧ isAlnumAscii c = true then
      some (whsecTag ++ c :: takeAlnum rest)
    else none
  | _ => none

/-- Leftmost match of `whsec_[a-zA-Z0-9]+` in `cs`, as computed by
`stdout.match(/whsec_[a-zA-Z0-9]+/)` followed by `match[0]`. -/
def findWhsec : List Char → Option (List Char)
  | [] => none
  | c :: cs =>
    match matchWhsecAt (c :: cs) with
    | some m => some m
    | none => findWhsec cs

/-- Step 3 (`createStripeWebhookSecret`): run `stripe listen --print-secret`
(a failing invocation rejects and the rejection is re-thrown), search its
captured stdout for the webhook-secret pattern, and throw the extraction
error when no match exists. -/
def createStripeWebhookSecret (env : Env) : StepResult String × List Event :=
  match env.listenOut with
  | none =>
    (.threw (.execFailure "stripe listen --print-secret"),
     [.exec "stripe listen --print-secret"])
  | some out =>
    match findWhsec out.toList with
    | some m => (.ok (String.mk m), [.exec "stripe listen --print-secret"])
    | none => (.threw .extraction, [.exec "stripe listen --print-secret"])

/-- Step 4 (`checkSupabaseProject`): the project-existence gate.  Answer
`n` (lowercased) leads to up to two creation-confirmation prompts, exiting
with status 1 when neither matches `continue`; answer `y` confirms
directly; any other answer exits with status 1 immediately. -/
def checkSupabaseProject (env : Env) : StepResult Unit × List Event :=
  if toLowerStr env.projectAnswer = "n" then
    if toLowerStr env.continueAnswer1 = "continue" then
      (.ok (), [.prompt projectQ, .prompt continueQ1])
    else if toLowerStr env.continueAnswer2 = "continue" then
      (.ok (), [.prompt projectQ, .prompt continueQ1, .prompt continueQ2])
    else
      (.exited 1, [.prompt projectQ, .prompt continueQ1, .prompt continueQ2])
  else if toLowerStr env.projectAnswer = "y" then
    (.ok (), [.prompt projectQ])
  else
    (.exited 1, [.prompt projectQ])

/-- Step 5a (`getSupabaseKeysApiUrl`): one prompt, raw answer returned. -/
def getSupabaseKeysApiUrl (env : Env) : String × List Event :=
  (env.urlAnswer, [.prompt urlQ])

/-- Step 5b (`getSupabaseKeysAnonKey`): one prompt, raw answer returned. -/
def getSupabaseKeysAnonKey (env : Env) : String × List Event :=
  (env.anonKeyAnswer, [.prompt anonQ])

/-- Step 5c (`getSupabaseKeysServiceRoleKey`): one prompt, raw answer. -/
def getSupabaseKeysServiceRoleKey (env : Env) : String × List Event :=
  (env.serviceKeyAnswer, [.prompt serviceQ])

/-- Semantics of `Array.prototype.join` with separator `"\n"`. -/
def joinLines : List String → String
  | [] => ""
  | [l] => l
  | l :: ls => l ++ "\n" ++ joinLines ls

/-- Rendering of `writeEnvFile`: `Object.entries(envVars)` (insertion
order for these string keys) mapped to `KEY=VALUE` lines and joined by a
single newline. -/
def envContent (envVars : List (String × String)) : String :=
  joinLines (envVars.map fun kv => kv.1 ++ "=" ++ kv.2)

/-- Step 6 (`writeEnvFile`): write the rendered content to `.env`. -/
def writeEnvFile (envVars : List (String × String)) : StepResult Unit × List Event :=
  (.ok (), [.fileWrite (envContent envVars)])

/-- Ordered entries of the object literal passed to `writeEnvFile` in
`main`, including the hardcoded `BASE_URL`. -/
def envPairs (sk ws url anon svc : String) : List (String × String) :=
  [("STRIPE_SECRET_KEY", sk), ("STRIPE_WEBHOOK_SECRET", ws),
   ("NEXT_PUBLIC_SUPABASE_URL", url), ("NEXT_PUBLIC_SUPABASE_ANON_KEY", anon),
   ("SUPABASE_SERVICE_ROLE_KEY", svc), ("BASE_URL", "http://localhost:3000")]

/-- The `main` pipeline: steps 1-6 in order, accumulating the event trace;
a `process.exit` or a thrown error aborts all remaining steps. -/
def main (env : Env) : StepResult Unit × List Event :=
  match checkStripeCLI env with
  | (.ok _, t1) =>
    let (sk, t2) := getStripeSecretKey env
    match createStripeWebhookSecret env with
    | (.ok ws, t3) =>
      match checkSupabaseProject env with
      | (.ok _, t4) =>
        let (url, t5) := getSupabaseKeysApiUrl env
        let (anon, t6) := getSupabaseKeysAnonKey env
        let (svc, t7) := getSupabaseKeysServiceRoleKey env
        let (r, t8) := writeEnvFile (envPairs sk ws url anon svc)
        (r, t1 ++ t2 ++ t3 ++ t4 ++ t5 ++ t6 ++ t7 ++ t8)
      | (.exited c, t4) => (.exited c, t1 ++ t2 ++ t3 ++ t4)
      | (.threw e, t4) => (.threw e, t1 ++ t2 ++ t3 ++ t4)
    | (.exited c, t3) => (.exited c, t1 ++ t2 ++ t3)
    | (.threw e, t3) => (.threw e, t1 ++ t2 ++ t3)
  | (.exited c, t1) => (.exited c, t1)
  | (.threw e, t1) => (.threw e, t1)

/-- Exit status of the whole process.  The entry point is
`main().catch(console.error)`: an explicit `process.exit` sets the code,
full success drains the event loop with status 0, and a rejected promise
is handled by the `catch` callback (which only logs), so the process also
exits normally with status 0 in that case. -/
def processExitCode (env : Env) : Nat :=
  match (main env).1 with
  | .ok _ => 0
  | .exited c => c
  | .threw _ => 0

/-- Projection of a trace to the contents of its file-write events. -/
def writesOf (tr : List Event) : List String :=
  tr.filterMap fun e =>
    match e with
    | .fileWrite c => some c
    | _ => none

/-- Projection of a trace to the question texts of its prompt events. -/
def promptsOf (tr : List Event) : List String :=
  tr.filterMap fun e =>
    match e with
    | .prompt q => some q
    | _ => none

/-- Number of `stripe config --list` invocations in a trace. -/
def configProbeCount (tr : List Event) : Nat :=
  (tr.filter fun e => e = Event.exec "stripe config --list").length

/-- Number of creation-confirmation prompts in a trace. -/
def confirmPromptCount (tr : List Event) : Nat :=
  (tr.filter fun e => e = Event.prompt continueQ1 ∨ e = Event.prompt continueQ2).length

/-- Splitting a character list at newline characters: a list containing n
newlines yields exactly n+1 (possibly empty) lines. -/
def splitNl : List Char → List (List Char)
  | [] => [[]]
  | c :: cs =>
    if c = '\n' then [] :: splitNl cs
    else
      match splitNl cs with
      | [] => [[c]]
      | l :: ls => (c :: l) :: ls

/-- Occurrence of a webhook-secret token: at some position the literal
`whsec_` tag is followed by at least one alphanumeric character. -/
def hasWhsecToken (cs : List Char) : Prop :=
  ∃ l c r, cs = l ++ whsecTag ++ c :: r ∧ isAlnumAscii c = true

/-- A fully successful interactive run, used to instantiate theorems. -/
def envHappy : Env :=
  { stripeVersionOk := true, stripeConfigOk1 := true, stripeConfigOk2 := true,
    authAnswer := "y", secretKeyAnswer := "sk_test_abc",
    listenOut := some "Ready! Your webhook signing secret is whsec_AbC123 (use Ctrl-C to quit)",
    projectAnswer := "y", continueAnswer1 := "continue", continueAnswer2 := "continue",
    urlAnswer := "https://example.supabase.co", anonKeyAnswer := "anonkey",
    serviceKeyAnswer := "servicekey" }

/-- A run whose `stripe listen` output contains no webhook-secret token. -/
def envNoSecret : Env :=
  { envHappy with listenOut := some "Getting ready... Ready! You are using Stripe API Version [2024-06-20]." }

/-- A run whose `stripe listen` invocation itself fails. -/
def envListenFails : Env := { envHappy with listenOut := none }

/-- A run answering the project-existence question with `maybe`. -/
def envMaybe : Env := { envHappy with projectAnswer := "maybe" }

/-- A run in which `stripe --version` fails. -/
def envNoStripe : Env := { envHappy with stripeVersionOk := false }

/-- A run in which the first auth probe fails and the operator declines. -/
def envAuthDeclined : Env :=
  { envHappy with stripeConfigOk1 := false, authAnswer := "no" }

/-- A run in which the first auth probe fails, the operator confirms, and
the re-probe succeeds. -/
def envAuthRetry : Env :=
  { envHappy with stripeConfigOk1 := false, authAnswer := "Y" }

/-- A run taking the second-chance path of the project gate. -/
def envSecondChance : Env :=
  { envHappy with projectAnswer := "N", continueAnswer1 := "no" }

end Setup

namespace Client

/-- The two entries of `process.env` read by `getSupabaseKeys`; `none`
models an unset variable. -/
structure ProcessEnv where
  NEXT_PUBLIC_SUPABASE_URL : Option String
  NEXT_PUBLIC_SUPABASE_ANON_KEY : Option String
  deriving DecidableEq, Repr

/-- Record returned by `getSupabaseKeys`. -/
structure SupabaseKeys where
  publicSupabaseUrl : String
  publicSupabaseAnonKey : String
  deriving DecidableEq, Repr

/-- JavaScript truthiness of a possibly-absent environment string:
`undefined` and the empty string are falsy, every other string truthy. -/
def truthy : Option String → Bool
  | none => false
  | some s => s != ""

/-- The key helper of `src/unnamed/part_000`: throws when either variable
is falsy, otherwise returns both values unchanged. -/
def getSupabaseKeys (env : ProcessEnv) : Except String SupabaseKeys :=
  if !truthy env.NEXT_PUBLIC_SUPABASE_URL then
    .error "NEXT_PUBLIC_SUPABASE_URL is not defined"
  else if !truthy env.NEXT_PUBLIC_SUPABASE_ANON_KEY then
    .error "NEXT_PUBLIC_SUPABASE_ANON_KEY is not defined"
  else
    .ok ⟨env.NEXT_PUBLIC_SUPABASE_URL.getD "", env.NEXT_PUBLIC_SUPABASE_ANON_KEY.getD ""⟩

/-- An environment with both variables set and non-empty. -/
def envKeysSet : ProcessEnv :=
  ⟨some "https://example.supabase.co", some "anon-key"⟩

end Client

namespace Middleware

/-- The parts of `request.nextUrl` the middleware looks at: the pathname,
plus an abstract remainder (host, search, ...) that `clone()` copies and
the middleware never modifies. -/
structure NextUrl where
  pathname : String
  remainder : String
  deriving DecidableEq, Repr

/-- Result of `updateSession`: a redirect response to the given URL, or
the pass-through `supabaseResponse` (which carries the session cookies the
SDK relay wrote into it). -/
inductive MwResponse (α : Type) where
  | redirect : NextUrl → MwResponse α
  | passThrough : α → MwResponse α
  deriving DecidableEq, Repr

/-- Character-list prefix test. -/
def startsWithChars : List Char → List Char → Bool
  | _, [] => true
  | [], _ :: _ => false
  | c :: cs, p :: ps => c = p && startsWithChars cs ps

/-- Semantics of JavaScript `String.prototype.startsWith`. -/
def startsWithStr (s pre : String) : Bool :=
  startsWithChars s.toList pre.toList

/-- Core of `updateSession` (`src/utils/supabase/middleware.ts`): `user`
is the result of `supabase.auth.getUser()` and `supabaseResponse` the
framework response built by the SDK cookie relay.  When no user is
present and the path starts with neither `/sign-in` nor `/sign-up`, the
request URL is cloned, its pathname replaced by `/sign-in`, and a redirect
to it returned; otherwise `supabaseResponse` is returned unchanged. -/
def updateSession {α : Type} (user : Option String) (req : NextUrl)
    (supabaseResponse : α) : MwResponse α :=
  if user.isNone && !(startsWithStr req.pathname "/sign-in")
      && !(startsWithStr req.pathname "/sign-up") then
    .redirect { req with pathname := "/sign-in" }
  else
    .passThrough supabaseResponse

/-- A request URL for a protected page, used to instantiate theorems. -/
def reqDashboard : NextUrl := ⟨"/dashboard", "q=1"⟩

end Middleware

namespace Setup

/-- Appending strings concatenates their character lists. -/
lemma toList_append (s t : String) : (s ++ t).toList = s.toList ++ t.toList := by
  simp [String.toList]

/-- A newline-free character list is a single line. -/
lemma splitNl_no_nl (cs : List Char) (h : '\n' ∉ cs) : splitNl cs = [cs] := by
  induction cs with
  | nil => rfl
  | cons c cs ih =>
    simp only [List.mem_cons, not_or] at h
    have hc : ¬ c = '\n' := fun hc => h.1 hc.symm
    simp [splitNl, hc, ih h.2]

/-- Splitting after a newline-free chunk peels off that chunk as the first
line. -/
lemma splitNl_append_nl (xs ys : List Char) (h : '\n' ∉ xs) :
    splitNl (xs ++ '\n' :: ys) = xs :: splitNl ys := by
  induction xs with
  | nil => simp [splitNl]
  | cons c xs ih =>
    simp only [List.mem_cons, not_or] at h
    have hc : ¬ c = '\n' := fun hc => h.1 hc.symm
    simp [splitNl, hc, ih h.2]

/-- Splitting the newline-join of newline-free lines recovers exactly the
lines. -/
lemma splitNl_joinLines (ss : List String) (h : ∀ s ∈ ss, '\n' ∉ s.toList)
    (hne : ss ≠ []) : splitNl (joinLines ss).toList = ss.map String.toList := by
  induction ss with
  | nil => cases hne rfl
  | cons s ss ih =>
    cases ss with
    | nil =>
      simpa [joinLines] using splitNl_no_nl s.toList (h s (by simp))
    | cons t ts =>
      have hj : joinLines (s :: t :: ts) = s ++ "\n" ++ joinLines (t :: ts) := rfl
      have h1 : '\n' ∉ s.toList := h s (by simp)
      have h2 : ∀ u ∈ t :: ts, '\n' ∉ u.toList := fun u hu => h u (by simp [hu])
      have ht : (s ++ "\n" ++ joinLines (t :: ts)).toList
          = s.toList ++ '\n' :: (joinLines (t :: ts)).toList := by
        simp [toList_append]
      rw [hj, ht, splitNl_append_nl _ _ h1, ih h2 (by simp)]
      simp

/-- Characterization of an anchored match of the webhook-secret regex. -/
lemma matchWhsecAt_some_iff (cs m : List Char) :
    matchWhsecAt cs = some m ↔
      ∃ c r, cs = whsecTag ++ c :: r ∧ isAlnumAscii c = true ∧
        m = whsecTag ++ c :: takeAlnum r := by
  constructor
  · intro h
    unfold matchWhsecAt at h
    split at h
    · rename_i c1 c2 c3 c4 c5 c6 c rest
      split at h
      · rename_i hcond
        refine ⟨c, rest, ?_, hcond.2, ?_⟩
        · rw [← hcond.1]; rfl
        · exact (Option.some_inj.1 h).symm
      · cases h
    · cases h
  · rintro ⟨c, r, hcs, ha, hm⟩
    subst hcs hm
    simp [matchWhsecAt, whsecTag, ha]

/-- An anchored match fails exactly when the list does not begin with a
webhook-secret token. -/
lemma matchWhsecAt_eq_none_iff (cs : List Char) :
    matchWhsecAt cs = none ↔
      ¬ ∃ c r, cs = whsecTag ++ c :: r ∧ isAlnumAscii c = true := by
  cases hm : matchWhsecAt cs with
  | some m =>
    rcases (matchWhsecAt_some_iff cs m).1 hm with ⟨c, r, h1, h2, _⟩
    constructor
    · intro h; cases h
    · intro hno; exact absurd ⟨c, r, h1, h2⟩ hno
  | none =>
    simp only [true_iff]
    rintro ⟨c, r, hcs, ha⟩
    have : matchWhsecAt cs = some (whsecTag ++ c :: takeAlnum r) :=
      (matchWhsecAt_some_iff cs _).2 ⟨c, r, hcs, ha, rfl⟩
    rw [hm] at this
    cases this

/-- A token occurs in `a :: cs` when it occurs at the head or in `cs`. -/
lemma hasWhsecToken_cons (a : Char) (cs : List Char) :
    hasWhsecToken (a :: cs) ↔
      (∃ c r, a :: cs = whsecTag ++ c :: r ∧ isAlnumAscii c = true) ∨
        hasWhsecToken cs := by
  constructor
  · rintro ⟨l, c, r, h, ha⟩
    cases l with
    | nil => exact Or.inl ⟨c, r, by simpa using h, ha⟩
    | cons x l =>
      rw [List.cons_append, List.cons_append] at h
      injection h with h1 h2
      exact Or.inr ⟨l, c, r, by simpa using h2, ha⟩
  · rintro (⟨c, r, h, ha⟩ | ⟨l, c, r, h, ha⟩)
    · exact ⟨[], c, r, by simpa using h, ha⟩
    · exact ⟨a :: l, c, r, by simp [h], ha⟩

/-- The search fails exactly when no webhook-secret token occurs. -/
lemma findWhsec_eq_none_iff (cs : List Char) :
    findWhsec cs = none ↔ ¬ hasWhsecToken cs := by
  induction cs with
  | nil =>
    simp only [findWhsec, true_iff]
    rintro ⟨l, c, r, h, _⟩
    exact absurd h.symm (by simp [whsecTag])
  | cons a cs ih =>
    unfold findWhsec
    cases hm : matchWhsecAt (a :: cs) with
    | some m =>
      rcases (matchWhsecAt_some_iff _ m).1 hm with ⟨c, r, h1, h2, _⟩
      simp only [false_iff, not_not, reduceCtorEq]
      exact (hasWhsecToken_cons a cs).2 (Or.inl ⟨c, r, h1, h2⟩)
    | none =>
      rw [ih, hasWhsecToken_cons]
      have hno : ¬ ∃ c r, a :: cs = whsecTag ++ c :: r ∧ isAlnumAscii c = true :=
        (matchWhsecAt_eq_none_iff _).1 hm
      constructor
      · intro h
        rintro (hex | hcs)
        · exact hno hex
        · exact h hcs
      · intro h hcs
        exact h (Or.inr hcs)

/-- Every successful search returns the tag followed by a nonempty greedy
alphanumeric run. -/
lemma findWhsec_shape (cs m : List Char) (h : findWhsec cs = some m) :
    ∃ c r, m = whsecTag ++ c :: takeAlnum r ∧ isAlnumAscii c = true := by
  induction cs with
  | nil => cases h
  | cons a cs ih =>
    unfold findWhsec at h
    cases hm : matchWhsecAt (a :: cs) with
    | some m' =>
      rw [hm] at h
      rcases (matchWhsecAt_some_iff _ m').1 hm with ⟨c, r, _, ha, hm2⟩
      exact ⟨c, r, by rw [← Option.some_inj.1 h, hm2], ha⟩
    | none =>
      rw [hm] at h
      exact ih h

/-- Members of a greedy alphanumeric run are alphanumeric. -/
lemma mem_takeAlnum {c : Char} {cs : List Char} (h : c ∈ takeAlnum cs) :
    isAlnumAscii c = true := by
  induction cs with
  | nil => cases h
  | cons a cs ih =>
    unfold takeAlnum at h
    by_cases ha : isAlnumAscii a
    · rw [if_pos ha] at h
      rcases List.mem_cons.1 h with h | h
      · rwa [h]
      · exact ih h
    · rw [if_neg ha] at h
      cases h

/-- An extracted webhook secret never contains a newline. -/
lemma findWhsec_no_nl (cs m : List Char) (h : findWhsec cs = some m) :
    '\n' ∉ m := by
  rcases findWhsec_shape cs m h with ⟨c, r, hm, ha⟩
  subst hm
  intro hmem
  rcases List.mem_append.1 hmem with h' | h'
  · exact absurd h' (by simp [whsecTag])
  · rcases List.mem_cons.1 h' with h' | h'
    · rw [← h'] at ha
      exact absurd ha (by decide)
    · exact absurd (mem_takeAlnum h') (by decide)

/-- File writes of a concatenated trace. -/
lemma writesOf_append (t1 t2 : List Event) :
    writesOf (t1 ++ t2) = writesOf t1 ++ writesOf t2 := by
  simp [writesOf]

/-- File writes of the empty trace. -/
lemma writesOf_nil : writesOf [] = [] := rfl

/-- A prompt event contributes no file write. -/
lemma writesOf_prompt_cons (q : String) (tr : List Event) :
    writesOf (Event.prompt q :: tr) = writesOf tr := rfl

/-- An exec event contributes no file write. -/
lemma writesOf_exec_cons (s : String) (tr : List Event) :
    writesOf (Event.exec s :: tr) = writesOf tr := rfl

/-- A file-write event contributes its content. -/
lemma writesOf_fileWrite_cons (c : String) (tr : List Event) :
    writesOf (Event.fileWrite c :: tr) = c :: writesOf tr := rfl

/-- Step 1 never writes the configuration file. -/
lemma writesOf_checkStripeCLI (env : Env) : writesOf (checkStripeCLI env).2 = [] := by
  unfold checkStripeCLI
  repeat' split
  all_goals rfl

/-- Step 3 never writes the configuration file. -/
lemma writesOf_createStripeWebhookSecret (env : Env) :
    writesOf (createStripeWebhookSecret env).2 = [] := by
  unfold createStripeWebhookSecret
  repeat' split
  all_goals rfl

/-- Step 4 never writes the configuration file. -/
lemma writesOf_checkSupabaseProject (env : Env) :
    writesOf (checkSupabaseProject env).2 = [] := by
  unfold checkSupabaseProject
  repeat' split
  all_goals rfl

/-- A webhook secret returned by step 3 is newline-free. -/
lemma createStripeWebhookSecret_ok_no_nl (env : Env) (ws : String) (t : List Event)
    (h : createStripeWebhookSecret env = (.ok ws, t)) : '\n' ∉ ws.toList := by
  cases ho : env.listenOut with
  | none => simp only [createStripeWebhookSecret, ho, Prod.mk.injEq, reduceCtorEq, false_and] at h
  | some out =>
    cases hf : findWhsec out.toList with
    | none =>
      simp only [createStripeWebhookSecret, ho, hf, Prod.mk.injEq, reduceCtorEq, false_and] at h
    | some m =>
      simp only [createStripeWebhookSecret, ho, hf, Prod.mk.injEq,
        StepResult.ok.injEq] at h
      rw [← h.1]
      exact findWhsec_no_nl out.toList m hf

/-- A string with a nonempty head part is nonempty after appending. -/
lemma toList_ne_nil_append (s v : String) (hs : s.toList ≠ []) :
    (s ++ v).toList ≠ [] := by
  rw [toList_append]
  intro h
  exact hs (List.append_eq_nil.1 h).1

/-- The rendered configuration content splits into exactly the six
`KEY=VALUE` lines, in order. -/
lemma envContent_splitNl (sk ws url anon svc : String)
    (h1 : '\n' ∉ sk.toList) (h2 : '\n' ∉ ws.toList) (h3 : '\n' ∉ url.toList)
    (h4 : '\n' ∉ anon.toList) (h5 : '\n' ∉ svc.toList) :
    splitNl (envContent (envPairs sk ws url anon svc)).toList =
      [("STRIPE_SECRET_KEY=" ++ sk).toList,
       ("STRIPE_WEBHOOK_SECRET=" ++ ws).toList,
       ("NEXT_PUBLIC_SUPABASE_URL=" ++ url).toList,
       ("NEXT_PUBLIC_SUPABASE_ANON_KEY=" ++ anon).toList,
       ("SUPABASE_SERVICE_ROLE_KEY=" ++ svc).toList,
       "BASE_URL=http://localhost:3000".toList] := by
  have e1 : ("STRIPE_SECRET_KEY" ++ "=" : String) = "STRIPE_SECRET_KEY=" := by decide
  have e2 : ("STRIPE_WEBHOOK_SECRET" ++ "=" : String) = "STRIPE_WEBHOOK_SECRET=" := by decide
  have e3 : ("NEXT_PUBLIC_SUPABASE_URL" ++ "=" : String) = "NEXT_PUBLIC_SUPABASE_URL=" := by decide
  have e4 : ("NEXT_PUBLIC_SUPABASE_ANON_KEY" ++ "=" : String) = "NEXT_PUBLIC_SUPABASE_ANON_KEY=" := by decide
  have e5 : ("SUPABASE_SERVICE_ROLE_KEY" ++ "=" : String) = "SUPABASE_SERVICE_ROLE_KEY=" := by decide
  have e6 : ("BASE_URL" ++ "=" ++ "http://localhost:3000" : String)
      = "BASE_URL=http://localhost:3000" := by decide
  have hmap : (envPairs sk ws url anon svc).map (fun kv => kv.1 ++ "=" ++ kv.2) =
      ["STRIPE_SECRET_KEY=" ++ sk, "STRIPE_WEBHOOK_SECRET=" ++ ws,
       "NEXT_PUBLIC_SUPABASE_URL=" ++ url, "NEXT_PUBLIC_SUPABASE_ANON_KEY=" ++ anon,
       "SUPABASE_SERVICE_ROLE_KEY=" ++ svc, "BASE_URL=http://localhost:3000"] := by
    simp only [envPairs, List.map_cons, List.map_nil, e1, e2, e3, e4, e5, e6]
  rw [envContent, hmap, splitNl_joinLines]
  · simp
  · intro s hs
    simp only [List.mem_cons, List.not_mem_nil, or_false] at hs
    rcases hs with rfl | rfl | rfl | rfl | rfl | rfl
    · rw [toList_append]
      intro hm
      rcases List.mem_append.1 hm with hm | hm
      · exact absurd hm (by decide)
      · exact h1 hm
    · rw [toList_append]
      intro hm
      rcases List.mem_append.1 hm with hm | hm
      · exact absurd hm (by decide)
      · exact h2 hm
    · rw [toList_append]
      intro hm
      rcases List.mem_append.1 hm with hm | hm
      · exact absurd hm (by decide)
      · exact h3 hm
    · rw [toList_append]
      intro hm
      rcases List.mem_append.1 hm with hm | hm
      · exact absurd hm (by decide)
      · exact h4 hm
    · rw [toList_append]
      intro hm
      rcases List.mem_append.1 hm with hm | hm
      · exact absurd hm (by decide)
      · exact h5 hm
    · decide
  · simp

end Setup

namespace Setup

/-- C1: the claim states that every fatal step failure terminates the
process with exit status 1 and in particular that a failed webhook-secret
extraction makes the process exit non-zero.  On the run `envNoSecret`
(all earlier steps succeed, the captured `stripe listen` output contains
no `whsec_` token) the pipeline does abort with the extraction error, but
the rejected promise is handled by `main().catch(console.error)`, so the
process exit status is 0, not 1; the same happens when the listen
invocation itself fails (`envListenFails`). -/
theorem extraction_error_swallowed_exit_zero :
    (main envNoSecret).1 = .threw .extraction ∧
    processExitCode envNoSecret = 0 ∧
    (main envListenFails).1 = .threw (.execFailure "stripe listen --print-secret") ∧
    processExitCode envListenFails = 0 := by
  decide

/-- C2: on every successful run, exactly one configuration file is
written, and its content is the six fixed `KEY=VALUE` entries in the
defined order, joined by single newlines: splitting the content at
newlines yields exactly the six rendered lines (so each key occurs once,
in order), every line is nonempty (no blank lines), and the last line is
nonempty with exactly six lines present (no trailing newline). -/
theorem env_file_six_lines_exact (env : Env) (h : (main env).1 = .ok ())
    (h1 : '\n' ∉ env.secretKeyAnswer.toList) (h3 : '\n' ∉ env.urlAnswer.toList)
    (h4 : '\n' ∉ env.anonKeyAnswer.toList) (h5 : '\n' ∉ env.serviceKeyAnswer.toList) :
    ∃ ws : String,
      writesOf (main env).2 =
        [envContent (envPairs env.secretKeyAnswer ws env.urlAnswer
          env.anonKeyAnswer env.serviceKeyAnswer)] ∧
      splitNl (envContent (envPairs env.secretKeyAnswer ws env.urlAnswer
          env.anonKeyAnswer env.serviceKeyAnswer)).toList =
        [("STRIPE_SECRET_KEY=" ++ env.secretKeyAnswer).toList,
         ("STRIPE_WEBHOOK_SECRET=" ++ ws).toList,
         ("NEXT_PUBLIC_SUPABASE_URL=" ++ env.urlAnswer).toList,
         ("NEXT_PUBLIC_SUPABASE_ANON_KEY=" ++ env.anonKeyAnswer).toList,
         ("SUPABASE_SERVICE_ROLE_KEY=" ++ env.serviceKeyAnswer).toList,
         "BASE_URL=http://localhost:3000".toList] ∧
      ∀ l ∈ splitNl (envContent (envPairs env.secretKeyAnswer ws env.urlAnswer
          env.anonKeyAnswer env.serviceKeyAnswer)).toList, l ≠ [] := by
  rcases hc : checkStripeCLI env with ⟨r1, t1⟩
  cases r1 with
  | exited c => exfalso; simp [main, hc] at h
  | threw e => exfalso; simp [main, hc] at h
  | ok u =>
    rcases hw : createStripeWebhookSecret env with ⟨r3, t3⟩
    cases r3 with
    | exited c => exfalso; simp [main, hc, getStripeSecretKey, hw] at h
    | threw e => exfalso; simp [main, hc, getStripeSecretKey, hw] at h
    | ok ws =>
      rcases hp : checkSupabaseProject env with ⟨r4, t4⟩
      cases r4 with
      | exited c => exfalso; simp [main, hc, getStripeSecretKey, hw, hp] at h
      | threw e => exfalso; simp [main, hc, getStripeSecretKey, hw, hp] at h
      | ok u4 =>
        have w1 : writesOf t1 = [] := by
          have := writesOf_checkStripeCLI env
          rwa [hc] at this
        have w3 : writesOf t3 = [] := by
          have := writesOf_createStripeWebhookSecret env
          rwa [hw] at this
        have w4 : writesOf t4 = [] := by
          have := writesOf_checkSupabaseProject env
          rwa [hp] at this
        have h2 : '\n' ∉ ws.toList := createStripeWebhookSecret_ok_no_nl env ws t3 hw
        refine ⟨ws, ?_, envContent_splitNl _ _ _ _ _ h1 h2 h3 h4 h5, ?_⟩
        · simp only [main, hc, getStripeSecretKey, hw, hp, getSupabaseKeysApiUrl,
            getSupabaseKeysAnonKey, getSupabaseKeysServiceRoleKey, writeEnvFile]
          simp [writesOf_append, w1, w3, w4, writesOf_prompt_cons,
            writesOf_fileWrite_cons, writesOf_nil]
        · rw [envContent_splitNl _ _ _ _ _ h1 h2 h3 h4 h5]
          intro l hl
          simp only [List.mem_cons, List.not_mem_nil, or_false] at hl
          rcases hl with rfl | rfl | rfl | rfl | rfl | rfl
          · exact toList_ne_nil_append _ _ (by decide)
          · exact toList_ne_nil_append _ _ (by decide)
          · exact toList_ne_nil_append _ _ (by decide)
          · exact toList_ne_nil_append _ _ (by decide)
          · exact toList_ne_nil_append _ _ (by decide)
          · decide

/-- Witness for C2: the concrete run `envHappy` succeeds, its answers are
newline-free, and the theorem's conclusion holds for it. -/
theorem env_file_six_lines_exact_witness :
    (main envHappy).1 = .ok () ∧
    '\n' ∉ envHappy.secretKeyAnswer.toList ∧
    '\n' ∉ envHappy.urlAnswer.toList ∧
    '\n' ∉ envHappy.anonKeyAnswer.toList ∧
    '\n' ∉ envHappy.serviceKeyAnswer.toList ∧
    (∃ ws : String,
      writesOf (main envHappy).2 =
        [envContent (envPairs envHappy.secretKeyAnswer ws envHappy.urlAnswer
          envHappy.anonKeyAnswer envHappy.serviceKeyAnswer)] ∧
      splitNl (envContent (envPairs envHappy.secretKeyAnswer ws envHappy.urlAnswer
          envHappy.anonKeyAnswer envHappy.serviceKeyAnswer)).toList =
        [("STRIPE_SECRET_KEY=" ++ envHappy.secretKeyAnswer).toList,
         ("STRIPE_WEBHOOK_SECRET=" ++ ws).toList,
         ("NEXT_PUBLIC_SUPABASE_URL=" ++ envHappy.urlAnswer).toList,
         ("NEXT_PUBLIC_SUPABASE_ANON_KEY=" ++ envHappy.anonKeyAnswer).toList,
         ("SUPABASE_SERVICE_ROLE_KEY=" ++ envHappy.serviceKeyAnswer).toList,
         "BASE_URL=http://localhost:3000".toList] ∧
      ∀ l ∈ splitNl (envContent (envPairs envHappy.secretKeyAnswer ws envHappy.urlAnswer
          envHappy.anonKeyAnswer envHappy.serviceKeyAnswer)).toList, l ≠ []) :=
  ⟨by decide, by decide, by decide, by decide, by decide,
   env_file_six_lines_exact envHappy (by decide) (by decide) (by decide) (by decide) (by decide)⟩

/-- C3: in the project gate, after a first-level answer lowercasing to
`n` whose first creation-confirmation answer does not match `continue`,
exactly one further confirmation prompt is issued (two confirmation
prompts in total, never a third); the gate confirms exactly when the
second answer matches the token and exits with status 1 otherwise. -/
theorem project_gate_second_chance (env : Env)
    (hn : toLowerStr env.projectAnswer = "n")
    (hne : toLowerStr env.continueAnswer1 ≠ "continue") :
    confirmPromptCount (checkSupabaseProject env).2 = 2 ∧
    (toLowerStr env.continueAnswer2 = "continue" →
      (checkSupabaseProject env).1 = .ok ()) ∧
    (toLowerStr env.continueAnswer2 ≠ "continue" →
      (checkSupabaseProject env).1 = .exited 1) := by
  by_cases h2 : toLowerStr env.continueAnswer2 = "continue"
  · refine ⟨?_, fun _ => ?_, fun hq => absurd h2 hq⟩
    · have htr : (checkSupabaseProject env).2 =
          [.prompt projectQ, .prompt continueQ1, .prompt continueQ2] := by
        simp [checkSupabaseProject, hn, hne, h2]
      rw [htr]
      decide
    · simp [checkSupabaseProject, hn, hne, h2]
  · refine ⟨?_, fun hq => absurd hq h2, fun _ => ?_⟩
    · have htr : (checkSupabaseProject env).2 =
          [.prompt projectQ, .prompt continueQ1, .prompt continueQ2] := by
        simp [checkSupabaseProject, hn, hne, h2]
      rw [htr]
      decide
    · simp [checkSupabaseProject, hn, hne, h2]

/-- Witness for C3: the run answering `N`, then `no`, then `continue`
satisfies the hypotheses and the conclusion of the gate theorem. -/
theorem project_gate_second_chance_witness :
    toLowerStr envSecondChance.projectAnswer = "n" ∧
    toLowerStr envSecondChance.continueAnswer1 ≠ "continue" ∧
    (confirmPromptCount (checkSupabaseProject envSecondChance).2 = 2 ∧
     (toLowerStr envSecondChance.continueAnswer2 = "continue" →
       (checkSupabaseProject envSecondChance).1 = .ok ()) ∧
     (toLowerStr envSecondChance.continueAnswer2 ≠ "continue" →
       (checkSupabaseProject envSecondChance).1 = .exited 1)) :=
  ⟨by decide, by decide, project_gate_second_chance envSecondChance (by decide) (by decide)⟩

/-- C4: the extractor searches the captured stdout for
`whsec_` followed by one or more alphanumeric characters: it throws the
extraction error exactly when no such token occurs anywhere in the
output, it returns the (leftmost, greedy) matched token when one exists,
and on the sample output containing `whsec_AbC123` it returns exactly
`whsec_AbC123`. -/
theorem webhook_secret_extractor_spec (env : Env) (out : String)
    (hout : env.listenOut = some out) :
    ((createStripeWebhookSecret env).1 = .threw .extraction ↔
      ¬ hasWhsecToken out.toList) ∧
    (∀ m : List Char, findWhsec out.toList = some m →
      (createStripeWebhookSecret env).1 = .ok (String.mk m)) ∧
    (out = "Ready! Your webhook signing secret is whsec_AbC123 (use Ctrl-C to quit)" →
      (createStripeWebhookSecret env).1 = .ok "whsec_AbC123") := by
  refine ⟨?_, ?_, ?_⟩
  · cases hf : findWhsec out.toList with
    | some m =>
      have hd : findWhsec out.data = some m := hf
      have hres : (createStripeWebhookSecret env).1 = .ok (String.mk m) := by
        simp [createStripeWebhookSecret, hout, hd]
      rw [hres]
      have hhas : hasWhsecToken out.toList := by
        by_contra hno
        rw [← findWhsec_eq_none_iff] at hno
        rw [hf] at hno
        cases hno
      constructor
      · intro hq
        cases hq
      · intro hno
        exact absurd hhas hno
    | none =>
      have hd : findWhsec out.data = none := hf
      have hres : (createStripeWebhookSecret env).1 = .threw .extraction := by
        simp [createStripeWebhookSecret, hout, hd]
      rw [hres]
      exact iff_of_true rfl ((findWhsec_eq_none_iff out.toList).1 hf)
  · intro m hf
    have hd : findWhsec out.data = some m := hf
    simp [createStripeWebhookSecret, hout, hd]
  · intro hout2
    subst hout2
    simp only [createStripeWebhookSecret, hout]
    decide

/-- Witness for C4: on `envHappy`, whose listen output contains
`whsec_AbC123`, the extractor theorem applies and in particular the
extractor returns exactly `whsec_AbC123`. -/
theorem webhook_secret_extractor_spec_witness :
    envHappy.listenOut =
      some "Ready! Your webhook signing secret is whsec_AbC123 (use Ctrl-C to quit)" ∧
    (((createStripeWebhookSecret envHappy).1 = .threw .extraction ↔
      ¬ hasWhsecToken ("Ready! Your webhook signing secret is whsec_AbC123 (use Ctrl-C to quit)" : String).toList) ∧
    (∀ m : List Char,
      findWhsec ("Ready! Your webhook signing secret is whsec_AbC123 (use Ctrl-C to quit)" : String).toList = some m →
      (createStripeWebhookSecret envHappy).1 = .ok (String.mk m)) ∧
    (("Ready! Your webhook signing secret is whsec_AbC123 (use Ctrl-C to quit)" : String) =
        "Ready! Your webhook signing secret is whsec_AbC123 (use Ctrl-C to quit)" →
      (createStripeWebhookSecret envHappy).1 = .ok "whsec_AbC123")) :=
  ⟨rfl, webhook_secret_extractor_spec envHappy _ rfl⟩

/-- C5: in the external-tool verifier with the installation probe
succeeding and the first authentication probe failing: a non-affirmative
confirmation answer exits with status 1 after exactly one probe
invocation (no re-probe), while an affirmative answer re-runs the probe
exactly once (two invocations in total), after which the step succeeds
exactly when the re-probe succeeds and exits with status 1 exactly when
it fails. -/
theorem stripe_auth_confirm_then_single_reprobe (env : Env)
    (hv : env.stripeVersionOk = true) (hc : env.stripeConfigOk1 = false) :
    (toLowerStr env.authAnswer ≠ "y" →
      (checkStripeCLI env).1 = .exited 1 ∧
      configProbeCount (checkStripeCLI env).2 = 1) ∧
    (toLowerStr env.authAnswer = "y" →
      configProbeCount (checkStripeCLI env).2 = 2 ∧
      ((checkStripeCLI env).1 = .ok () ↔ env.stripeConfigOk2 = true) ∧
      ((checkStripeCLI env).1 = .exited 1 ↔ env.stripeConfigOk2 = false)) := by
  constructor
  · intro hno
    have hstep : checkStripeCLI env =
        (.exited 1, [.exec "stripe --version", .exec "stripe config --list", .prompt authQ]) := by
      simp [checkStripeCLI, hv, hc, hno]
    rw [hstep]
    exact ⟨rfl, by decide⟩
  · intro hyes
    cases h2 : env.stripeConfigOk2 with
    | true =>
      have hstep : checkStripeCLI env =
          (.ok (), [.exec "stripe --version", .exec "stripe config --list", .prompt authQ,
            .exec "stripe config --list"]) := by
        simp [checkStripeCLI, hv, hc, hyes, h2]
      rw [hstep]
      refine ⟨by decide, by simp, by simp⟩
    | false =>
      have hstep : checkStripeCLI env =
          (.exited 1, [.exec "stripe --version", .exec "stripe config --list", .prompt authQ,
            .exec "stripe config --list"]) := by
        simp [checkStripeCLI, hv, hc, hyes, h2]
      rw [hstep]
      refine ⟨by decide, by simp, by simp⟩

/-- Witness for C5: the declining run `envAuthDeclined` exits after a
single probe, and the confirming run `envAuthRetry` probes twice and
succeeds because its re-probe succeeds. -/
theorem stripe_auth_confirm_then_single_reprobe_witness :
    (envAuthDeclined.stripeVersionOk = true ∧ envAuthDeclined.stripeConfigOk1 = false ∧
      ((checkStripeCLI envAuthDeclined).1 = .exited 1 ∧
       configProbeCount (checkStripeCLI envAuthDeclined).2 = 1)) ∧
    (envAuthRetry.stripeVersionOk = true ∧ envAuthRetry.stripeConfigOk1 = false ∧
      (configProbeCount (checkStripeCLI envAuthRetry).2 = 2 ∧
       ((checkStripeCLI envAuthRetry).1 = .ok () ↔ envAuthRetry.stripeConfigOk2 = true) ∧
       ((checkStripeCLI envAuthRetry).1 = .exited 1 ↔ envAuthRetry.stripeConfigOk2 = false))) :=
  ⟨⟨rfl, rfl, (stripe_auth_confirm_then_single_reprobe envAuthDeclined rfl rfl).1 (by decide)⟩,
   ⟨rfl, rfl, (stripe_auth_confirm_then_single_reprobe envAuthRetry rfl rfl).2 (by decide)⟩⟩

/-- C6: when the `stripe --version` installation probe fails, the process
exits with status 1 and the run's trace contains no prompt at all, so in
particular no secret-acquisition prompt is ever issued. -/
theorem version_probe_failure_no_prompts (env : Env)
    (hv : env.stripeVersionOk = false) :
    processExitCode env = 1 ∧ promptsOf (main env).2 = [] := by
  have hc : checkStripeCLI env = (.exited 1, [.exec "stripe --version"]) := by
    simp [checkStripeCLI, hv]
  have hmain : main env = (.exited 1, [.exec "stripe --version"]) := by
    simp [main, hc]
  constructor
  · simp [processExitCode, hmain]
  · rw [hmain]
    rfl

/-- Witness for C6: the run `envNoStripe` has a failing installation
probe, exits with status 1 and issues no prompt. -/
theorem version_probe_failure_no_prompts_witness :
    envNoStripe.stripeVersionOk = false ∧
    (processExitCode envNoStripe = 1 ∧ promptsOf (main envNoStripe).2 = []) :=
  ⟨rfl, version_probe_failure_no_prompts envNoStripe rfl⟩

/-- C7: in the project gate, a first-level answer lowercasing to neither
`y` nor `n` exits with status 1 immediately, the trace being the single
existence prompt (no further prompt at this level); an answer lowercasing
to `y` confirms directly. -/
theorem project_gate_invalid_input_immediate_exit (env : Env) :
    (toLowerStr env.projectAnswer ≠ "y" → toLowerStr env.projectAnswer ≠ "n" →
      (checkSupabaseProject env).1 = .exited 1 ∧
      (checkSupabaseProject env).2 = [.prompt projectQ]) ∧
    (toLowerStr env.projectAnswer = "y" →
      (checkSupabaseProject env).1 = .ok ()) := by
  constructor
  · intro hy hn
    constructor
    · simp [checkSupabaseProject, hy, hn]
    · simp [checkSupabaseProject, hy, hn]
  · intro hy
    have hn : toLowerStr env.projectAnswer ≠ "n" := by rw [hy]; decide
    simp [checkSupabaseProject, hn, hy]

/-- Witness for C7: answering `maybe` exits with status 1 after the
single existence prompt, and answering `y` (as in `envHappy`) confirms. -/
theorem project_gate_invalid_input_immediate_exit_witness :
    ((checkSupabaseProject envMaybe).1 = .exited 1 ∧
     (checkSupabaseProject envMaybe).2 = [.prompt projectQ]) ∧
    (checkSupabaseProject envHappy).1 = .ok () :=
  ⟨(project_gate_invalid_input_immediate_exit envMaybe).1 (by decide) (by decide),
   (project_gate_invalid_input_immediate_exit envHappy).2 (by decide)⟩

/-- C8: on every run that does not reach full success (any step exits or
throws before assembly), the trace contains no configuration-file write:
the write is reached only after every prior step has succeeded. -/
theorem no_config_write_before_success (env : Env)
    (h : (main env).1 ≠ .ok ()) : writesOf (main env).2 = [] := by
  rcases hc : checkStripeCLI env with ⟨r1, t1⟩
  have w1 : writesOf t1 = [] := by
    have := writesOf_checkStripeCLI env
    rwa [hc] at this
  cases r1 with
  | exited c => simp only [main, hc]; exact w1
  | threw e => simp only [main, hc]; exact w1
  | ok u =>
    rcases hw : createStripeWebhookSecret env with ⟨r3, t3⟩
    have w3 : writesOf t3 = [] := by
      have := writesOf_createStripeWebhookSecret env
      rwa [hw] at this
    cases r3 with
    | exited c =>
      simp only [main, hc, getStripeSecretKey, hw]
      simp [writesOf_append, w1, w3, writesOf_prompt_cons, writesOf_nil]
    | threw e =>
      simp only [main, hc, getStripeSecretKey, hw]
      simp [writesOf_append, w1, w3, writesOf_prompt_cons, writesOf_nil]
    | ok ws =>
      rcases hp : checkSupabaseProject env with ⟨r4, t4⟩
      have w4 : writesOf t4 = [] := by
        have := writesOf_checkSupabaseProject env
        rwa [hp] at this
      cases r4 with
      | exited c =>
        simp only [main, hc, getStripeSecretKey, hw, hp]
        simp [writesOf_append, w1, w3, w4, writesOf_prompt_cons, writesOf_nil]
      | threw e =>
        simp only [main, hc, getStripeSecretKey, hw, hp]
        simp [writesOf_append, w1, w3, w4, writesOf_prompt_cons, writesOf_nil]
      | ok u4 =>
        exfalso
        apply h
        simp only [main, hc, getStripeSecretKey, hw, hp, getSupabaseKeysApiUrl,
          getSupabaseKeysAnonKey, getSupabaseKeysServiceRoleKey, writeEnvFile]

/-- Witness for C8: the failing run `envNoStripe` writes nothing. -/
theorem no_config_write_before_success_witness :
    (main envNoStripe).1 ≠ .ok () ∧ writesOf (main envNoStripe).2 = [] :=
  ⟨by decide, no_config_write_before_success envNoStripe (by decide)⟩

end Setup

namespace Client

/-- C9: `getSupabaseKeys` throws exactly when either environment variable
is absent or empty, and otherwise returns exactly the two environment
values unchanged. -/
theorem getSupabaseKeys_spec (env : ProcessEnv) :
    ((∃ e, getSupabaseKeys env = .error e) ↔
      (env.NEXT_PUBLIC_SUPABASE_URL = none ∨ env.NEXT_PUBLIC_SUPABASE_URL = some "" ∨
       env.NEXT_PUBLIC_SUPABASE_ANON_KEY = none ∨
       env.NEXT_PUBLIC_SUPABASE_ANON_KEY = some "")) ∧
    (∀ u a : String, env.NEXT_PUBLIC_SUPABASE_URL = some u → u ≠ "" →
      env.NEXT_PUBLIC_SUPABASE_ANON_KEY = some a → a ≠ "" →
      getSupabaseKeys env = .ok ⟨u, a⟩) := by
  obtain ⟨url, anon⟩ := env
  constructor
  · cases url with
    | none => simp [getSupabaseKeys, truthy]
    | some u =>
      by_cases hu : u = ""
      · subst hu
        simp [getSupabaseKeys, truthy]
      · cases anon with
        | none => simp [getSupabaseKeys, truthy, hu]
        | some a =>
          by_cases ha : a = ""
          · subst ha
            simp [getSupabaseKeys, truthy, hu]
          · simp [getSupabaseKeys, truthy, hu, ha]
  · intro u a hu hune ha hane
    simp only at hu ha
    subst hu ha
    simp [getSupabaseKeys, truthy, hune, hane]

/-- Witness for C9: with both variables set and non-empty the helper
returns exactly the two values. -/
theorem getSupabaseKeys_spec_witness :
    envKeysSet.NEXT_PUBLIC_SUPABASE_URL = some "https://example.supabase.co" ∧
    envKeysSet.NEXT_PUBLIC_SUPABASE_ANON_KEY = some "anon-key" ∧
    getSupabaseKeys envKeysSet = .ok ⟨"https://example.supabase.co", "anon-key"⟩ :=
  ⟨rfl, rfl,
   (getSupabaseKeys_spec envKeysSet).2 "https://example.supabase.co" "anon-key"
     rfl (by decide) rfl (by decide)⟩

end Client

namespace Middleware

/-- C10: when no authenticated user is present and the request path
starts with neither `/sign-in` nor `/sign-up`, `updateSession` returns a
redirect whose URL is the request URL with its pathname replaced by
`/sign-in`; with an authenticated user, or a path starting with either
prefix token, it returns the pass-through response unchanged. -/
theorem updateSession_spec {α : Type} (user : Option String) (req : NextUrl)
    (resp : α) :
    (user = none → startsWithStr req.pathname "/sign-in" = false →
      startsWithStr req.pathname "/sign-up" = false →
      updateSession user req resp = .redirect { req with pathname := "/sign-in" }) ∧
    ((user ≠ none ∨ startsWithStr req.pathname "/sign-in" = true ∨
        startsWithStr req.pathname "/sign-up" = true) →
      updateSession user req resp = .passThrough resp) := by
  constructor
  · intro hu h1 h2
    subst hu
    simp [updateSession, h1, h2]
  · rintro (hu | h1 | h2)
    · cases user with
      | none => exact absurd rfl hu
      | some v => simp [updateSession]
    · simp [updateSession, h1]
    · simp [updateSession, h2]

/-- Witness for C10: an unauthenticated request for `/dashboard` is
redirected to `/sign-in` with the remainder of the URL preserved, and an
authenticated request for the same URL passes through. -/
theorem updateSession_spec_witness :
    updateSession (none : Option String) reqDashboard (0 : Nat) =
      .redirect { reqDashboard with pathname := "/sign-in" } ∧
    updateSession (some "user-1") reqDashboard (0 : Nat) = .passThrough 0 :=
  ⟨(updateSession_spec none reqDashboard 0).1 rfl (by decide) (by decide),
   (updateSession_spec (some "user-1") reqDashboard 0).2 (Or.inl (by decide))⟩

end Middleware
